import Mathlib

/-!
# Verification of the gravity-simulator physics core

Shallow embedding of `src/main.rs` (a Bevy-based 2D gravitational N-body toy).
All `f32` arithmetic is modelled over `ℚ` (exact real-number semantics of the
same formulas).  Body translations always have `z = 0` in the source (both
creation paths spawn at `z = 0` and `body_movement` only writes `x` and `y`),
so positions are modelled as 2D vectors.
-/

/-- 2D vector of rationals, modelling Bevy `Vec2` / the (x, y) part of a
translation. -/
structure Vec2 where
  x : ℚ
  y : ℚ
deriving Repr, DecidableEq

/-- `const NUM_BODIES: usize = 10;` (main.rs line 15). -/
def NUM_BODIES : Nat := 10

/-- `const WIDTH: usize = 800;` (main.rs line 17), used as `WIDTH as f32`. -/
def WIDTH : ℚ := 800

/-- `const HEIGHT: usize = 600;` (main.rs line 18), used as `HEIGHT as f32`. -/
def HEIGHT : ℚ := 600

/-- `const GRAVITATIONAL_CONSTANT: f32 = 8.31 * 10e-5;` (main.rs line 20).
The Rust float literal `10e-5` denotes 10·10⁻⁵ = 10⁻⁴. -/
def GRAVITATIONAL_CONSTANT : ℚ := 8.31 * (10 / 10 ^ 5)

/-- `const DENSITY: f32 = 100.;` (main.rs line 21). -/
def DENSITY : ℚ := 100

/-- `std::f32::consts::PI`: the exact rational value of the 32-bit float
nearest to π (0x40490FDB = 13176795 / 2²²). -/
def PI : ℚ := 13176795 / 4194304

/-- The `Body` component (main.rs lines 42-50). -/
structure Body where
  mass : ℚ
  radius : ℚ
  ax : ℚ
  ay : ℚ
  vx : ℚ
  vy : ℚ
deriving Repr, DecidableEq

/-- `Body::get_mass` (main.rs lines 52-56): `PI * radius * radius * radius * DENSITY`. -/
def Body.get_mass (radius : ℚ) : ℚ :=
  PI * radius * radius * radius * DENSITY

/-- Squared Euclidean distance between two translations, as computed by
`delta.length_squared()` in `body_update` (z components are always 0). -/
def distSq (t1 t2 : Vec2) : ℚ :=
  (t2.x - t1.x) * (t2.x - t1.x) + (t2.y - t1.y) * (t2.y - t1.y)

/-- The body of the `while let` loop of `body_update` (main.rs lines 120-132):
the interaction of one unordered pair.  Translations are read-only
(`GlobalTransform`), so only the two bodies are returned. -/
def applyPair (b1 b2 : Body) (t1 t2 : Vec2) : Body × Body :=
  let dx := t2.x - t1.x
  let dy := t2.y - t1.y
  let distance_sq := dx * dx + dy * dy
  if distance_sq > b1.radius * b1.radius ∧ distance_sq > b2.radius * b2.radius then
    let f := (GRAVITATIONAL_CONSTANT * b1.mass * b2.mass) / distance_sq
    let fx := dx * f
    let fy := dy * f
    ({ b1 with ax := b1.ax + fx / b1.mass, ay := b1.ay + fy / b1.mass },
     { b2 with ax := b2.ax - fx / b2.mass, ay := b2.ay - fy / b2.mass })
  else
    (b1, b2)

/-- Interacts the head body with every body of the rest of the list, threading
the mutations, as `iter_combinations_mut` yields the pairs (0,1), (0,2), ….
Returns the updated head and the updated rest. -/
def pairAll : Body × Vec2 → List (Body × Vec2) → (Body × Vec2) × List (Body × Vec2)
  | p, [] => (p, [])
  | p, q :: rest =>
      let r := applyPair p.1 q.1 p.2 q.2
      let s := pairAll (r.1, p.2) rest
      (s.1, (r.2, q.2) :: s.2)

theorem pairAll_length (p : Body × Vec2) (l : List (Body × Vec2)) :
    (pairAll p l).2.length = l.length := by
  induction l generalizing p with
  | nil => rfl
  | cons q rest ih => simp [pairAll, ih]

/-- `body_update` (main.rs lines 117-134): one Force Accumulator pass over the
whole list of bodies, visiting every distinct unordered pair once in the
sequential order of `iter_combinations_mut`. -/
def body_update : List (Body × Vec2) → List (Body × Vec2)
  | [] => []
  | p :: rest => (pairAll p rest).1 :: body_update (pairAll p rest).2
termination_by l => l.length
decreasing_by simp [pairAll_length]

/-- The loop body of `body_movement` (main.rs lines 137-146): one Integrator
step on a single body and its transform, with `dt = time.delta_seconds()`. -/
def body_movement_step (dt : ℚ) (p : Body × Vec2) : Body × Vec2 :=
  let b := p.1
  let t := p.2
  let vx := b.vx + b.ax * 0.1
  let vy := b.vy + b.ay * 0.1
  ({ b with vx := vx, vy := vy, ax := 0, ay := 0 },
   { x := t.x + vx * dt, y := t.y + vy * dt })

/-- `body_movement` (main.rs lines 136-147): the Integrator pass over all
bodies. -/
def body_movement (dt : ℚ) (l : List (Body × Vec2)) : List (Body × Vec2) :=
  l.map (body_movement_step dt)

/-- Modelled from the spec: one simulation tick invokes the Force Accumulator
(`body_update`) and then the Integrator (`body_movement`), in that fixed
order.  The source registers both systems with `add_system` (main.rs lines
73-74); the per-frame once-each invocation and their relative order are decided
by the Bevy scheduler, which is not part of this repository's code. -/
def tick (dt : ℚ) (l : List (Body × Vec2)) : List (Body × Vec2) :=
  body_movement dt (body_update l)

/-- The `BodyPlaceholder` component (main.rs lines 26-31): the pending
placement-gesture state. -/
structure BodyPlaceholder where
  pos : Vec2
  radius : ℚ
  can_place : Bool
deriving Repr, DecidableEq

/-- `BodyPlaceholder::get_velocity` (main.rs lines 36-40):
`(new_pos - self.pos) * Vec2::new(-1.5, -1.5)`, componentwise. -/
def BodyPlaceholder.get_velocity (self : BodyPlaceholder) (new_pos : Vec2) : Vec2 :=
  ⟨(new_pos.x - self.pos.x) * (-1.5), (new_pos.y - self.pos.y) * (-1.5)⟩

/-- The placeholder entity's visual state written by `cursor_actions`:
its `Transform` translation (x, y; z is a constant 10) and uniform scale, and
its `Visibility`.  The separate `BodyVelIndicator` entity (main.rs lines
203-208 and 223-236) is pure visual feedback — rotation/scale via `atan` —
read by no claim; it is omitted from the model. -/
structure PlaceholderView where
  translation : Vec2
  scale : ℚ
  is_visible : Bool
deriving Repr, DecidableEq

/-- The mutable state `cursor_actions` operates on. -/
structure CursorState where
  placeholder : BodyPlaceholder
  view : PlaceholderView
deriving Repr, DecidableEq

/-- The mouse-button facts `cursor_actions` queries from `Res<Input<MouseButton>>`. -/
structure Buttons where
  left_just_pressed : Bool
  left_pressed : Bool
  left_just_released : Bool
  right_just_pressed : Bool
deriving Repr, DecidableEq

/-- `cursor_actions` (main.rs lines 149-283).  `cursor` is the world-space
cursor position when `wnd.cursor_position()` is `Some` (the screen-to-world
mapping of lines 179-191 is external camera plumbing); when it is `none` the
whole system does nothing.  Returns the updated state and the spawned
`Body` with its spawn translation (x, y; the spawn sets z = 0), if any.
The four branches run in source order; the `return` at line 213 (left held
but `can_place` false) exits before the release and right-click branches. -/
def cursor_actions (buttons : Buttons) (cursor : Option Vec2) (s : CursorState) :
    CursorState × Option (Body × Vec2) :=
  match cursor with
  | none => (s, none)
  | some pos =>
    let s1 :=
      if buttons.left_just_pressed then
        { placeholder := { pos := pos, radius := s.placeholder.radius, can_place := true },
          view := { translation := pos, scale := s.view.scale, is_visible := true } }
      else s
    if buttons.left_pressed && !s1.placeholder.can_place then
      (s1, none)
    else
      let s2 :=
        if buttons.left_pressed then
          { placeholder := { pos := s1.placeholder.pos, radius := s1.placeholder.radius + 0.5,
                             can_place := s1.placeholder.can_place },
            view := { translation := s1.view.translation,
                      scale := (s1.placeholder.radius + 0.5) / 10,
                      is_visible := s1.view.is_visible } }
        else s1
      let released :=
        if buttons.left_just_released then
          let vel := s2.placeholder.get_velocity pos
          let radius := s2.placeholder.radius
          let mass := Body.get_mass radius
          (({ placeholder := { pos := s2.placeholder.pos, radius := 0, can_place := false },
              view := { translation := s2.view.translation, scale := 1, is_visible := false } },
            some (({ mass := mass, radius := radius, ax := 0, ay := 0,
                     vx := vel.x, vy := vel.y } : Body),
                  s2.view.translation)) : CursorState × Option (Body × Vec2))
        else (s2, none)
      let s3 := released.1
      let s4 :=
        if buttons.right_just_pressed then
          { placeholder := { pos := s3.placeholder.pos, radius := 0, can_place := false },
            view := { translation := s3.view.translation, scale := 1, is_visible := false } }
        else s3
      (s4, released.2)

/-- The per-body random draws of `spawn_random` (main.rs lines 342-348):
`radius` from `rng.gen_range(2.0..15.0)`, `x` and `y` from
`rng.gen_range(-0.5..=0.5)`.  `thread_rng` is external; the draws are an
oracle parameter, constrained by `gen_range`'s range contract in the
theorems. -/
structure RandDraws where
  radius : ℚ
  x : ℚ
  y : ℚ
deriving Repr, DecidableEq

/-- `spawn_random` (main.rs lines 335-368): spawns `NUM_BODIES` bodies, each
with the drawn radius, the derived mass, zero velocity and acceleration, and
translation `(x · WIDTH · 0.4, y · HEIGHT · 0.4)` (z = 0). -/
def spawn_random (draws : Fin NUM_BODIES → RandDraws) : List (Body × Vec2) :=
  (List.finRange NUM_BODIES).map (fun i =>
    let radius := (draws i).radius
    let mass := Body.get_mass radius
    let rand_x := (draws i).x * WIDTH * 0.4
    let rand_y := (draws i).y * HEIGHT * 0.4
    (({ mass := mass, radius := radius, ax := 0, ay := 0, vx := 0, vy := 0 } : Body),
     (⟨rand_x, rand_y⟩ : Vec2)))

/-! ## Helper lemmas -/

theorem applyPair_mass (b1 b2 : Body) (t1 t2 : Vec2) :
    (applyPair b1 b2 t1 t2).1.mass = b1.mass ∧ (applyPair b1 b2 t1 t2).2.mass = b2.mass := by
  refine ⟨?_, ?_⟩ <;> simp only [applyPair] <;> split <;> rfl

theorem pairAll_mass (p : Body × Vec2) (l : List (Body × Vec2)) :
    (pairAll p l).1.1.mass = p.1.mass ∧
    (pairAll p l).2.map (fun q => q.1.mass) = l.map (fun q => q.1.mass) := by
  induction l generalizing p with
  | nil => exact ⟨rfl, rfl⟩
  | cons q rest ih =>
    have h := applyPair_mass p.1 q.1 p.2 q.2
    have h2 := ih ((applyPair p.1 q.1 p.2 q.2).1, p.2)
    simp only [pairAll, List.map]
    exact ⟨by rw [h2.1]; exact h.1, by rw [h2.2, h.2]⟩

theorem body_update_mass (l : List (Body × Vec2)) :
    (body_update l).map (fun q => q.1.mass) = l.map (fun q => q.1.mass) := by
  suffices h : ∀ (n : Nat) (m : List (Body × Vec2)), m.length = n →
      (body_update m).map (fun q => q.1.mass) = m.map (fun q => q.1.mass) by
    exact h l.length l rfl
  intro n
  induction n with
  | zero =>
    intro m hm
    cases m with
    | nil => simp [body_update]
    | cons p rest => simp at hm
  | succ n ih =>
    intro m hm
    cases m with
    | nil => simp at hm
    | cons p rest =>
      have hlen : (pairAll p rest).2.length = n := by
        rw [pairAll_length]; simpa using hm
      simp only [body_update, List.map]
      rw [ih _ hlen, (pairAll_mass p rest).1, (pairAll_mass p rest).2]

/-! ## Claims -/

/-- C1: for every distinct unordered pair whose squared distance d² satisfies
d² > radius₁² and d² > radius₂², the Force Accumulator pass applies to the
pair the force with magnitude scalar F = G·m₁·m₂/d², G = 8.31×10⁻⁴, decomposed
along (pos₂ − pos₁) into components (Δx·F, Δy·F); body 1's acceleration gains
those components divided by its own mass, and body 2's loses them divided by
its own mass. -/
theorem C1_pair_force (b1 b2 : Body) (t1 t2 : Vec2)
    (h1 : distSq t1 t2 > b1.radius * b1.radius)
    (h2 : distSq t1 t2 > b2.radius * b2.radius) :
    applyPair b1 b2 t1 t2 =
      ({ b1 with
          ax := b1.ax + (t2.x - t1.x) *
            (GRAVITATIONAL_CONSTANT * b1.mass * b2.mass / distSq t1 t2) / b1.mass,
          ay := b1.ay + (t2.y - t1.y) *
            (GRAVITATIONAL_CONSTANT * b1.mass * b2.mass / distSq t1 t2) / b1.mass },
       { b2 with
          ax := b2.ax - (t2.x - t1.x) *
            (GRAVITATIONAL_CONSTANT * b1.mass * b2.mass / distSq t1 t2) / b2.mass,
          ay := b2.ay - (t2.y - t1.y) *
            (GRAVITATIONAL_CONSTANT * b1.mass * b2.mass / distSq t1 t2) / b2.mass }) ∧
    GRAVITATIONAL_CONSTANT = 8.31 * (1 / 10 ^ 4) := by
  constructor
  · unfold distSq at h1 h2
    simp only [applyPair]
    rw [if_pos ⟨h1, h2⟩]
    rfl
  · norm_num [GRAVITATIONAL_CONSTANT]

/-- C1 witness: concrete non-overlapping pair. -/
theorem C1_pair_force_witness :
    distSq ⟨0, 0⟩ ⟨10, 0⟩ >
      (({ mass := 2, radius := 1, ax := 0, ay := 0, vx := 0, vy := 0 } : Body)).radius *
      (({ mass := 2, radius := 1, ax := 0, ay := 0, vx := 0, vy := 0 } : Body)).radius ∧
    distSq ⟨0, 0⟩ ⟨10, 0⟩ >
      (({ mass := 3, radius := 2, ax := 0, ay := 0, vx := 0, vy := 0 } : Body)).radius *
      (({ mass := 3, radius := 2, ax := 0, ay := 0, vx := 0, vy := 0 } : Body)).radius ∧
    applyPair { mass := 2, radius := 1, ax := 0, ay := 0, vx := 0, vy := 0 }
        { mass := 3, radius := 2, ax := 0, ay := 0, vx := 0, vy := 0 } ⟨0, 0⟩ ⟨10, 0⟩ =
      ({ mass := 2, radius := 1,
          ax := 0 + ((10 : ℚ) - 0) *
            (GRAVITATIONAL_CONSTANT * 2 * 3 / distSq ⟨0, 0⟩ ⟨10, 0⟩) / 2,
          ay := 0 + ((0 : ℚ) - 0) *
            (GRAVITATIONAL_CONSTANT * 2 * 3 / distSq ⟨0, 0⟩ ⟨10, 0⟩) / 2,
          vx := 0, vy := 0 },
       { mass := 3, radius := 2,
          ax := 0 - ((10 : ℚ) - 0) *
            (GRAVITATIONAL_CONSTANT * 2 * 3 / distSq ⟨0, 0⟩ ⟨10, 0⟩) / 3,
          ay := 0 - ((0 : ℚ) - 0) *
            (GRAVITATIONAL_CONSTANT * 2 * 3 / distSq ⟨0, 0⟩ ⟨10, 0⟩) / 3,
          vx := 0, vy := 0 }) :=
  ⟨by norm_num [distSq], by norm_num [distSq],
   (C1_pair_force { mass := 2, radius := 1, ax := 0, ay := 0, vx := 0, vy := 0 }
      { mass := 3, radius := 2, ax := 0, ay := 0, vx := 0, vy := 0 }
      ⟨0, 0⟩ ⟨10, 0⟩ (by norm_num [distSq]) (by norm_num [distSq])).1⟩

/-- C2: a pair with d² ≤ radius₁² or d² ≤ radius₂² contributes nothing: the
pair interaction returns both bodies entirely unchanged. -/
theorem C2_pair_excluded (b1 b2 : Body) (t1 t2 : Vec2)
    (h : distSq t1 t2 ≤ b1.radius * b1.radius ∨ distSq t1 t2 ≤ b2.radius * b2.radius) :
    applyPair b1 b2 t1 t2 = (b1, b2) := by
  unfold distSq at h
  simp only [applyPair]
  rw [if_neg]
  rcases h with h | h
  · exact fun hc => absurd hc.1 (not_lt.mpr h)
  · exact fun hc => absurd hc.2 (not_lt.mpr h)

/-- C2 witness: concrete overlapping pair (distance² = 25 ≤ radius₁² = 36). -/
theorem C2_pair_excluded_witness :
    (distSq ⟨0, 0⟩ ⟨3, 4⟩ ≤
      (({ mass := 5, radius := 6, ax := 1, ay := 2, vx := 3, vy := 4 } : Body)).radius *
      (({ mass := 5, radius := 6, ax := 1, ay := 2, vx := 3, vy := 4 } : Body)).radius ∨
     distSq ⟨0, 0⟩ ⟨3, 4⟩ ≤
      (({ mass := 7, radius := 1, ax := 0, ay := 0, vx := 0, vy := 0 } : Body)).radius *
      (({ mass := 7, radius := 1, ax := 0, ay := 0, vx := 0, vy := 0 } : Body)).radius) ∧
    applyPair { mass := 5, radius := 6, ax := 1, ay := 2, vx := 3, vy := 4 }
        { mass := 7, radius := 1, ax := 0, ay := 0, vx := 0, vy := 0 } ⟨0, 0⟩ ⟨3, 4⟩ =
      ({ mass := 5, radius := 6, ax := 1, ay := 2, vx := 3, vy := 4 },
       { mass := 7, radius := 1, ax := 0, ay := 0, vx := 0, vy := 0 }) :=
  ⟨Or.inl (by norm_num [distSq]),
   C2_pair_excluded { mass := 5, radius := 6, ax := 1, ay := 2, vx := 3, vy := 4 }
     { mass := 7, radius := 1, ax := 0, ay := 0, vx := 0, vy := 0 }
     ⟨0, 0⟩ ⟨3, 4⟩ (Or.inl (by norm_num [distSq]))⟩

/-- C3: Newton's third law for one pair interaction of the Force Accumulator:
mass₁ · Δaccel₁ = −(mass₂ · Δaccel₂) componentwise, for any two bodies,
whatever their masses. -/
theorem C3_newton_third_law (b1 b2 : Body) (t1 t2 : Vec2) :
    b1.mass * ((applyPair b1 b2 t1 t2).1.ax - b1.ax) =
      -(b2.mass * ((applyPair b1 b2 t1 t2).2.ax - b2.ax)) ∧
    b1.mass * ((applyPair b1 b2 t1 t2).1.ay - b1.ay) =
      -(b2.mass * ((applyPair b1 b2 t1 t2).2.ay - b2.ay)) := by
  simp only [applyPair]
  split
  · rename_i h
    have hd : (t2.x - t1.x) * (t2.x - t1.x) + (t2.y - t1.y) * (t2.y - t1.y) ≠ 0 :=
      ne_of_gt (lt_of_le_of_lt (mul_self_nonneg b1.radius) h.1)
    rcases eq_or_ne b1.mass 0 with hm1 | hm1
    · simp [hm1]
    · rcases eq_or_ne b2.mass 0 with hm2 | hm2
      · simp [hm2]
      · constructor <;> · field_simp; ring
  · simp

/-- C4: one Integrator step on a single body: velocity becomes v + a·0.1,
then position becomes p + (v + a·0.1)·dt, acceleration is reset to (0, 0);
the 0.1 velocity scale is a fixed constant independent of dt, while the
position update uses the elapsed time dt. -/
theorem C4_integrator_step (dt dt2 : ℚ) (b : Body) (t : Vec2) :
    body_movement_step dt (b, t) =
      ({ b with vx := b.vx + b.ax * 0.1, vy := b.vy + b.ay * 0.1, ax := 0, ay := 0 },
       (⟨t.x + (b.vx + b.ax * 0.1) * dt, t.y + (b.vy + b.ay * 0.1) * dt⟩ : Vec2)) ∧
    (body_movement_step dt (b, t)).1.vx = (body_movement_step dt2 (b, t)).1.vx ∧
    (body_movement_step dt (b, t)).1.vy = (body_movement_step dt2 (b, t)).1.vy :=
  ⟨rfl, rfl, rfl⟩

/-- C5: every created body's mass is π · radius³ · 100 (DENSITY = 100):
`get_mass` computes that formula, both creation paths (gesture release and
random spawn) derive mass from the body's radius by `get_mass`, and no
operation (pair interaction, full force pass, integrator step) ever changes a
body's mass. -/
theorem C5_mass_formula_and_immutable :
    (∀ r : ℚ, Body.get_mass r = PI * r ^ 3 * 100) ∧
    (∀ bt c s, ((cursor_actions bt c s).2).elim True
        (fun p => p.1.mass = Body.get_mass p.1.radius)) ∧
    (∀ draws, (spawn_random draws).Forall (fun p => p.1.mass = Body.get_mass p.1.radius)) ∧
    (∀ b1 b2 t1 t2, (applyPair b1 b2 t1 t2).1.mass = b1.mass ∧
        (applyPair b1 b2 t1 t2).2.mass = b2.mass) ∧
    (∀ l, (body_update l).map (fun q => q.1.mass) = l.map (fun q => q.1.mass)) ∧
    (∀ dt p, (body_movement_step dt p).1.mass = p.1.mass) := by
  refine ⟨?_, ?_, ?_, applyPair_mass, body_update_mass, fun dt p => rfl⟩
  · intro r
    unfold Body.get_mass DENSITY
    ring
  · intro bt c s
    cases c with
    | none => trivial
    | some pos =>
      cases h1 : bt.left_just_pressed <;> cases h2 : bt.left_pressed <;>
        cases h3 : bt.left_just_released <;>
          cases h4 : s.placeholder.can_place <;>
            simp [cursor_actions, h1, h2, h3, h4]
  · intro draws
    rw [spawn_random, List.forall_map_iff]
    rw [List.forall_iff_forall_mem]
    intro i _
    rfl

/-- C6: ending a placement gesture whose anchor (both the placeholder's
`pos` and the placeholder entity's translation, set together on press) is A,
with release position P, emits a Body with velocity (P − A) × (−1.5, −1.5),
placed at the anchor A, with zero acceleration. -/
theorem C6_gesture_release (A P : Vec2) (s : CursorState) (bt : Buttons)
    (hjp : bt.left_just_pressed = false) (hp : bt.left_pressed = false)
    (hjr : bt.left_just_released = true)
    (hA : s.placeholder.pos = A) (hT : s.view.translation = A) :
    (cursor_actions bt (some P) s).2 =
      some ({ mass := Body.get_mass s.placeholder.radius, radius := s.placeholder.radius,
              ax := 0, ay := 0,
              vx := (P.x - A.x) * (-1.5), vy := (P.y - A.y) * (-1.5) }, A) := by
  simp [cursor_actions, hjp, hp, hjr, BodyPlaceholder.get_velocity, hA, hT]

/-- C6 witness: a concrete gesture with anchor (1, 2) released at (3, 5). -/
theorem C6_gesture_release_witness :
    (cursor_actions ⟨false, false, true, false⟩ (some ⟨3, 5⟩)
        ⟨⟨⟨1, 2⟩, 4, true⟩, ⟨⟨1, 2⟩, 1, true⟩⟩).2 =
      some ({ mass := Body.get_mass 4, radius := 4, ax := 0, ay := 0,
              vx := ((3 : ℚ) - 1) * (-1.5), vy := ((5 : ℚ) - 2) * (-1.5) }, ⟨1, 2⟩) :=
  C6_gesture_release ⟨1, 2⟩ ⟨3, 5⟩ ⟨⟨⟨1, 2⟩, 4, true⟩, ⟨⟨1, 2⟩, 1, true⟩⟩
    ⟨false, false, true, false⟩ rfl rfl rfl rfl rfl

/-- C9: a gesture released with radius still 0 (no drag motion) is not
rejected or clamped: it emits a Body with radius 0 and mass 0 (at the
placeholder entity's translation, with the gesture velocity). -/
theorem C9_zero_radius_release (P : Vec2) (s : CursorState) (bt : Buttons)
    (hjp : bt.left_just_pressed = false) (hp : bt.left_pressed = false)
    (hjr : bt.left_just_released = true)
    (hr : s.placeholder.radius = 0) :
    (cursor_actions bt (some P) s).2 =
      some ({ mass := 0, radius := 0, ax := 0, ay := 0,
              vx := (P.x - s.placeholder.pos.x) * (-1.5),
              vy := (P.y - s.placeholder.pos.y) * (-1.5) }, s.view.translation) := by
  simp [cursor_actions, hjp, hp, hjr, BodyPlaceholder.get_velocity, hr, Body.get_mass]

/-- C9 witness: a zero-radius gesture at anchor (7, 8) released at (9, 9). -/
theorem C9_zero_radius_release_witness :
    (cursor_actions ⟨false, false, true, false⟩ (some ⟨9, 9⟩)
        ⟨⟨⟨7, 8⟩, 0, true⟩, ⟨⟨7, 8⟩, 1, true⟩⟩).2 =
      some ({ mass := 0, radius := 0, ax := 0, ay := 0,
              vx := ((9 : ℚ) - 7) * (-1.5), vy := ((9 : ℚ) - 8) * (-1.5) }, ⟨7, 8⟩) :=
  C9_zero_radius_release ⟨9, 9⟩ ⟨⟨⟨7, 8⟩, 0, true⟩, ⟨⟨7, 8⟩, 1, true⟩⟩
    ⟨false, false, true, false⟩ rfl rfl rfl rfl

/-- C10: the release branch never reads `can_place`: a left release with the
cursor in the window spawns a Body even when the gesture is inactive
(`can_place = false`, radius reset to 0 by a cancel), using the stale
placeholder translation as the spawn position. -/
theorem C10_release_after_cancel (P : Vec2) (s : CursorState) (bt : Buttons)
    (hjp : bt.left_just_pressed = false) (hp : bt.left_pressed = false)
    (hjr : bt.left_just_released = true)
    (_hcp : s.placeholder.can_place = false) (hr : s.placeholder.radius = 0) :
    (cursor_actions bt (some P) s).2 =
      some ({ mass := 0, radius := 0, ax := 0, ay := 0,
              vx := (P.x - s.placeholder.pos.x) * (-1.5),
              vy := (P.y - s.placeholder.pos.y) * (-1.5) }, s.view.translation) := by
  simp [cursor_actions, hjp, hp, hjr, BodyPlaceholder.get_velocity, hr, Body.get_mass]

/-- C10 witness: release straight after a cancel (inactive gesture, stale
anchor (4, 6)) still spawns a zero-radius body at (4, 6). -/
theorem C10_release_after_cancel_witness :
    (cursor_actions ⟨false, false, true, false⟩ (some ⟨10, 10⟩)
        ⟨⟨⟨4, 6⟩, 0, false⟩, ⟨⟨4, 6⟩, 1, false⟩⟩).2 =
      some ({ mass := 0, radius := 0, ax := 0, ay := 0,
              vx := ((10 : ℚ) - 4) * (-1.5), vy := ((10 : ℚ) - 6) * (-1.5) }, ⟨4, 6⟩) :=
  C10_release_after_cancel ⟨10, 10⟩ ⟨⟨⟨4, 6⟩, 0, false⟩, ⟨⟨4, 6⟩, 1, false⟩⟩
    ⟨false, false, true, false⟩ rfl rfl rfl rfl rfl

/-- C7: a spawn-random request produces exactly NUM_BODIES = 10 bodies; under
`gen_range`'s range contract (radius draw in [2, 15), coordinate draws in
[−0.5, 0.5]) every body has radius in [2, 15), mass from the mass formula,
zero velocity and acceleration, and translation within
[−0.4·WIDTH, 0.4·WIDTH] × [−0.4·HEIGHT, 0.4·HEIGHT] of the origin (the view
center). -/
theorem C7_spawn_random_bodies (draws : Fin NUM_BODIES → RandDraws)
    (hr : ∀ i, 2 ≤ (draws i).radius ∧ (draws i).radius < 15)
    (hx : ∀ i, -0.5 ≤ (draws i).x ∧ (draws i).x ≤ 0.5)
    (hy : ∀ i, -0.5 ≤ (draws i).y ∧ (draws i).y ≤ 0.5) :
    (spawn_random draws).length = 10 ∧
    (spawn_random draws).Forall (fun p =>
      (2 ≤ p.1.radius ∧ p.1.radius < 15) ∧
      p.1.mass = Body.get_mass p.1.radius ∧
      p.1.vx = 0 ∧ p.1.vy = 0 ∧ p.1.ax = 0 ∧ p.1.ay = 0 ∧
      (-(0.4 * WIDTH) ≤ p.2.x ∧ p.2.x ≤ 0.4 * WIDTH) ∧
      (-(0.4 * HEIGHT) ≤ p.2.y ∧ p.2.y ≤ 0.4 * HEIGHT)) := by
  constructor
  · simp [spawn_random, NUM_BODIES]
  · rw [spawn_random, List.forall_map_iff, List.forall_iff_forall_mem]
    intro i _
    refine ⟨hr i, rfl, rfl, rfl, rfl, rfl, ⟨?_, ?_⟩, ⟨?_, ?_⟩⟩ <;>
      simp only [WIDTH, HEIGHT] <;> nlinarith [(hx i).1, (hx i).2, (hy i).1, (hy i).2]

/-- C7 witness: constant draws (radius 3, x draw 0, y draw 1/2). -/
theorem C7_spawn_random_bodies_witness :
    (spawn_random (fun _ => ⟨3, 0, 0.5⟩)).length = 10 ∧
    (spawn_random (fun _ => ⟨3, 0, 0.5⟩)).Forall (fun p =>
      (2 ≤ p.1.radius ∧ p.1.radius < 15) ∧
      p.1.mass = Body.get_mass p.1.radius ∧
      p.1.vx = 0 ∧ p.1.vy = 0 ∧ p.1.ax = 0 ∧ p.1.ay = 0 ∧
      (-(0.4 * WIDTH) ≤ p.2.x ∧ p.2.x ≤ 0.4 * WIDTH) ∧
      (-(0.4 * HEIGHT) ≤ p.2.y ∧ p.2.y ≤ 0.4 * HEIGHT)) :=
  C7_spawn_random_bodies (fun _ => ⟨3, 0, 0.5⟩)
    (fun _ => by norm_num) (fun _ => by norm_num) (fun _ => by norm_num)

/-- C8: one simulation tick is the Force Accumulator pass followed by the
Integrator pass, in that fixed order, and after it every body's acceleration
is exactly (0, 0) — so acceleration is zero at the start of the next tick's
Force Accumulator pass. -/
theorem C8_tick_order_and_accel_reset (dt : ℚ) (l : List (Body × Vec2)) :
    tick dt l = body_movement dt (body_update l) ∧
    (tick dt l).Forall (fun p => p.1.ax = 0 ∧ p.1.ay = 0) := by
  refine ⟨rfl, ?_⟩
  rw [tick, body_movement, List.forall_map_iff, List.forall_iff_forall_mem]
  intro p _
  exact ⟨rfl, rfl⟩
